import Mathlib

/-!
Shallow embedding of the ticket-metrics core of the hubspot-ticket-exec-report
repository (src/app.py and src/jobs/build_metrics.py).

Time model: an instant is an `Int`, counting minutes on the single fixed
Europe/Dublin wall clock, with minute 0 being midnight of an (arbitrary)
Monday.  All the source comparisons happen after both sides are converted
into one common zone (`astimezone(TZ)` / `astimezone(UTC)`), which is an
order-isomorphism, so a single integer timeline models them faithfully; the
business-day boundaries and the 09:00/17:00 marks are defined by the source
in local wall-clock terms, which is exactly this timeline.  One day is 1440
minutes; `dateOf` is the calendar date (`datetime.date()`) as a day index,
and a day index `d` has weekday `d % 7` with 0 = Monday (`datetime.weekday()`).

Raw table fields that pandas may fail to parse are modelled by `RawTime`:
`valid t` is a parseable timestamp, `absent` is SQL NULL / NaT, `malformed`
is an unparseable string.  `pd.to_datetime(..., errors="coerce")`
(src/app.py lines 83-85, src/jobs/build_metrics.py lines 51-52) maps
`malformed` to NaT; a NaT fails every ordering comparison and satisfies
`isna`, which is what `asInstant _ = none` produces below.
-/

/-- `datetime.date()` of an instant, as a day index (floor division,
so it is correct for instants before the epoch as well). -/
def dateOf (t : Int) : Int := t / 1440

/-- WORK_START = time(9, 0) (src/app.py line 15), in minutes after midnight. -/
def WORK_START : Int := 540

/-- WORK_END = time(17, 0) (src/app.py line 16), in minutes after midnight. -/
def WORK_END : Int := 1020

/-- A raw timestamp column value as it comes out of the store. -/
inductive RawTime where
  | absent : RawTime
  | malformed : RawTime
  | valid : Int → RawTime
deriving DecidableEq

/-- The value a parsed timestamp contributes to comparisons: a NaT (absent or
coerced-malformed) fails `notna` and every ordering comparison, which is the
pandas behaviour of the columns after `pd.to_datetime(..., errors="coerce")`. -/
def asInstant : RawTime → Option Int
  | .valid t => some t
  | _ => none

/-- `pd.to_datetime(column, utc=True, errors="coerce")`: parseable values are
kept, anything else becomes NaT. -/
def parseTime : RawTime → RawTime
  | .valid t => .valid t
  | _ => .absent

/-- One row of the tickets_snapshot table, after the ingestion in `main`
(src/jobs/build_metrics.py lines 110-111) / `load_data` (src/app.py lines
90-100) has already coerced `category` and `owner_id` to their sentinel
strings, so those are total `String`s here. -/
structure Ticket where
  ticket_id : String
  created_at : RawTime
  closed_at : RawTime
  updated_at : RawTime
  is_closed : Bool
  category : String
  owner_id : String
deriving DecidableEq

/-- The in-place column reassignment `df["created_at"] = pd.to_datetime(...)`,
`df["closed_at"] = pd.to_datetime(...)` of src/jobs/build_metrics.py lines
51-52, applied to one row.  `updated_at` is not touched there. -/
def parseTicket (t : Ticket) : Ticket :=
  ⟨t.ticket_id, parseTime t.created_at, parseTime t.closed_at, t.updated_at,
   t.is_closed, t.category, t.owner_id⟩

/-- `cur.weekday() >= 5` (src/app.py line 55): Saturday or Sunday. -/
def isWeekendDay (d : Int) : Bool := d % 7 ≥ 5

/-- The contribution of weekday `d` to `business_hours_between start end`,
in minutes: the length of the intersection of the day's 09:00-17:00 window
with `[start, end]` when it is non-empty (src/app.py lines 59-66). -/
def dayContrib (d startM endM : Int) : Int :=
  let dayStart := 1440 * d + WORK_START
  let dayEnd := 1440 * d + WORK_END
  let ws := max dayStart startM
  let we := min dayEnd endM
  if ws < we then we - ws else 0

/-- The `while cur.date() <= end.date()` day-walk of src/app.py lines 53-68
(identical in src/jobs/build_metrics.py lines 23-37), as a fuel-indexed
recursion over the current date `d`.  Both loop branches reset `cur` to the
next day's midnight, so only `cur.date()` is live across iterations and the
loop state is exactly `d`.  `none` means the fuel ran out before the loop
condition failed; `business_hours_between` supplies enough fuel, which is
proved below. -/
def bhLoopF : Nat → Int → Int → Int → Option Int
  | 0, _, _, _ => none
  | fuel + 1, d, startM, endM =>
    if d ≤ dateOf endM then
      if isWeekendDay d then
        bhLoopF fuel (d + 1) startM endM
      else
        match bhLoopF fuel (d + 1) startM endM with
        | none => none
        | some rest => some (dayContrib d startM endM + rest)
    else
      some 0

/-- `business_hours_between` (src/app.py lines 39-70) on two defined
instants: 0 when `end <= start`, otherwise the day-walk total converted to
hours.  The source accumulates `total_seconds() / 3600.0`; here minutes are
summed exactly and divided by 60 in `ℚ`. -/
def business_hours_between (startM endM : Int) : ℚ :=
  if endM ≤ startM then 0
  else
    match bhLoopF ((dateOf endM - dateOf startM).toNat + 2) (dateOf startM) startM endM with
    | some m => (m : ℚ) / 60
    | none => 0

/-- `business_hours_between` including the `pd.isna(start) or pd.isna(end)`
guard of src/app.py line 44: an undefined endpoint yields 0.0. -/
def business_hours_opt (a b : Option Int) : ℚ :=
  match a, b with
  | some x, some y => business_hours_between x y
  | _, _ => 0

/-- The effective close instant column built by src/app.py lines 175-177:
the column starts as `closed_at`, and only where it `isna()` and `is_closed`
is true is it overwritten with `updated_at`.  In particular a row with
`is_closed` false keeps its (possibly non-null) `closed_at`. -/
def closed_effective_at (t : Ticket) : Option Int :=
  match asInstant t.closed_at with
  | some c => some c
  | none => if t.is_closed then asInstant t.updated_at else none

/-- The Opened slice predicate, `(created_at >= start) & (created_at < end)`
(src/app.py line 186 and src/jobs/build_metrics.py line 65); NaT fails both
comparisons. -/
def openedP (t : Ticket) (s e : Int) : Bool :=
  match asInstant t.created_at with
  | some c => decide (s ≤ c) && decide (c < e)
  | none => false

/-- The dashboard Closed slice predicate (src/app.py lines 188-193):
`is_closed` and a non-null `closed_effective_at` inside `[start, end)`. -/
def closedP (t : Ticket) (s e : Int) : Bool :=
  t.is_closed &&
    match closed_effective_at t with
    | some c => decide (s ≤ c) && decide (c < e)
    | none => false

/-- The dashboard Backlog slice predicate (src/app.py lines 196-199):
`created_at < end` and (`closed_effective_at` null, or `>= end`, or not
`is_closed`).  Note it never reads the window start. -/
def backlogP (t : Ticket) (e : Int) : Bool :=
  (match asInstant t.created_at with
   | some c => decide (c < e)
   | none => false)
  && ((closed_effective_at t).isNone
      || (match closed_effective_at t with
          | some c => decide (e ≤ c)
          | none => false)
      || !t.is_closed)

/-- `opened = t[...]`, src/app.py line 186. -/
def openedCohort (ts : List Ticket) (s e : Int) : List Ticket :=
  ts.filter (fun t => openedP t s e)

/-- `closed = t[...]`, src/app.py lines 188-193. -/
def closedCohort (ts : List Ticket) (s e : Int) : List Ticket :=
  ts.filter (fun t => closedP t s e)

/-- `backlog = t[...]`, src/app.py lines 196-199 (the start bound is unused
by the source predicate). -/
def backlogCohort (ts : List Ticket) (e : Int) : List Ticket :=
  ts.filter (fun t => backlogP t e)

/-- Insert into a sorted list of rationals, ascending. -/
def insertSorted (x : ℚ) : List ℚ → List ℚ
  | [] => [x]
  | y :: ys => if x ≤ y then x :: y :: ys else y :: insertSorted x ys

/-- Ascending sort of a list of rationals (insertion sort). -/
def sortQ : List ℚ → List ℚ
  | [] => []
  | x :: xs => insertSorted x (sortQ xs)

/-- The linear-interpolation quantile used by `Series.median()` and
`Series.quantile(q)`: with the series sorted ascending and of length `n+1`,
the quantile sits at fractional rank `q * n` and interpolates between the
two neighbouring order statistics.  Empty series have no quantile; the 0
returned here for the empty case is never consumed (callers guard on
emptiness first, as the source does). -/
def quantileQ (xs : List ℚ) (q : ℚ) : ℚ :=
  match (sortQ xs).length with
  | 0 => 0
  | n + 1 =>
    let r : ℚ := q * n
    let i : Nat := r.floor.toNat
    let lo := (sortQ xs).getD i 0
    let hi := (sortQ xs).getD (min (i + 1) n) 0
    lo + (r - (i : ℚ)) * (hi - lo)

/-- The per-row `resolution_bh_hours` of src/app.py lines 206-212:
business hours from `created_at` to `closed_effective_at`. -/
def resolution_bh (t : Ticket) : ℚ :=
  business_hours_opt (asInstant t.created_at) (closed_effective_at t)

/-- The dashboard resolution KPIs (src/app.py lines 204-234): the duration
series is computed only when the Closed cohort is non-empty, its entries are
always defined floats, and the median / P90 tiles show a value exactly when
the series is non-empty (`notna().any()`), otherwise an em dash, i.e. no
value. -/
def resolutionStats (closed : List Ticket) : Option (ℚ × ℚ) :=
  if closed.isEmpty then none
  else some (quantileQ (closed.map resolution_bh) (1 / 2),
             quantileQ (closed.map resolution_bh) (9 / 10))

/-- The Monday of the week of `t`, as a day index: `dt - timedelta(days=
dt.weekday())` (src/jobs/build_metrics.py line 43).  Day subtraction on an
aware datetime is wall-clock arithmetic, so it shifts the date by exactly
`weekday()` days. -/
def mondayOf (t : Int) : Int := dateOf t - dateOf t % 7

/-- `week_start(dt)` of src/jobs/build_metrics.py lines 41-44: the Monday of
`dt`'s week, truncated to local midnight. -/
def week_start (t : Int) : Int := 1440 * mondayOf t

/-- The rollup Opened slice (src/jobs/build_metrics.py line 65) — the same
predicate as the dashboard one. -/
def bmOpened (df : List Ticket) (s e : Int) : List Ticket :=
  df.filter (fun t => openedP t s e)

/-- The rollup Closed slice predicate (src/jobs/build_metrics.py lines
66-67): `is_closed` and a non-null `closed_at` inside the window.  Unlike the
dashboard slice it reads `closed_at` itself, with no `updated_at` fallback. -/
def bmClosedP (t : Ticket) (s e : Int) : Bool :=
  t.is_closed &&
    match asInstant t.closed_at with
    | some c => decide (s ≤ c) && decide (c < e)
    | none => false

/-- The rollup Closed slice (src/jobs/build_metrics.py lines 66-67). -/
def bmClosed (df : List Ticket) (s e : Int) : List Ticket :=
  df.filter (fun t => bmClosedP t s e)

/-- The rollup Backlog slice predicate (src/jobs/build_metrics.py lines
69-70), again on raw `closed_at`. -/
def bmBacklogP (t : Ticket) (e : Int) : Bool :=
  (match asInstant t.created_at with
   | some c => decide (c < e)
   | none => false)
  && ((asInstant t.closed_at).isNone
      || (match asInstant t.closed_at with
          | some c => decide (e ≤ c)
          | none => false)
      || !t.is_closed)

/-- The rollup Backlog slice (src/jobs/build_metrics.py lines 69-70). -/
def bmBacklog (df : List Ticket) (e : Int) : List Ticket :=
  df.filter (fun t => bmBacklogP t e)

/-- `bh_close_hours` of one rollup Closed row (src/jobs/build_metrics.py
lines 73-76): business hours from `created_at` to `closed_at` (NaT endpoints
yield 0.0 by the isna guard). -/
def bm_bh (t : Ticket) : ℚ :=
  business_hours_opt (asInstant t.created_at) (asInstant t.closed_at)

/-- One row of the weekly_metrics output table.  `week_start` is stored as
`ws.date()` (src/jobs/build_metrics.py line 99), i.e. a day index here. -/
structure WeeklyRow where
  week_start : Int
  category : String
  owner_id : String
  opened_count : Nat
  closed_count : Nat
  backlog_end_count : Nat
  median_bh_close_hours : Option ℚ
  p90_bh_close_hours : Option ℚ
deriving DecidableEq

/-- The grouping key of the rollup, `["category", "owner_id"]`. -/
def keyOf (t : Ticket) : String × String := (t.category, t.owner_id)

/-- The distinct `(category, owner_id)` pairs of `cats` (src/jobs/
build_metrics.py lines 81-87): the groups of the rollup for one window are
exactly the keys occurring in one of the three slices. -/
def groupKeys (df : List Ticket) (ws we : Int) : List (String × String) :=
  ((bmOpened df ws we ++ bmClosed df ws we ++ bmBacklog df we).map keyOf).dedup

/-- One output row of the rollup for group `g` of window `[ws, we)`
(src/jobs/build_metrics.py lines 81-99): the three counts are the group's
sizes inside each slice (a group absent from a slice sums its NaN indicator
column to 0), and the two statistics come from the per-group
`bh_close_hours` aggregation, left-merged so that groups with no closed
ticket get NULL. -/
def rowFor (df : List Ticket) (ws we : Int) (g : String × String) : WeeklyRow :=
  ⟨dateOf ws, g.1, g.2,
   ((bmOpened df ws we).filter (fun t => decide (keyOf t = g))).length,
   ((bmClosed df ws we).filter (fun t => decide (keyOf t = g))).length,
   ((bmBacklog df we).filter (fun t => decide (keyOf t = g))).length,
   if ((bmClosed df ws we).filter (fun t => decide (keyOf t = g))).isEmpty then none
   else some (quantileQ (((bmClosed df ws we).filter (fun t => decide (keyOf t = g))).map bm_bh) (1 / 2)),
   if ((bmClosed df ws we).filter (fun t => decide (keyOf t = g))).isEmpty then none
   else some (quantileQ (((bmClosed df ws we).filter (fun t => decide (keyOf t = g))).map bm_bh) (9 / 10))⟩

/-- The `grouped` table of one window (src/jobs/build_metrics.py lines
60-100): one row per distinct group key. -/
def buildWeeklyRow (df : List Ticket) (ws we : Int) : List WeeklyRow :=
  (groupKeys df ws we).map (rowFor df ws we)

/-- Start of window number `k` (0-based, oldest first) of a run with
`weeks_back = wb` and ambient clock `now`: the `weeks` list of
src/jobs/build_metrics.py lines 54-58 walks from
`week_start(now) - 7 * weeks_back` days to `week_start(now)` in 7-day steps,
and since the span is an exact multiple of 7 days it yields exactly
`weeks_back` windows. -/
def winStart (wb : Nat) (now : Int) (k : Nat) : Int :=
  week_start now - 10080 * (wb : Int) + 10080 * (k : Int)

/-- The `weeks` list of half-open windows (src/jobs/build_metrics.py lines
54-58), oldest first. -/
def weekWindows (wb : Nat) (now : Int) : List (Int × Int) :=
  (List.range wb).map (fun k => (winStart wb now k, winStart wb now k + 10080))

/-- `build_weekly_metrics(df, weeks_back)` (src/jobs/build_metrics.py lines
46-105).  The source reads `now = datetime.now(TZ)` from the ambient clock
inside the function; that ambient state is threaded here as the explicit
`now` argument.  The source also reassigns the `created_at` / `closed_at`
columns of the caller's DataFrame in place (lines 51-52); that in-place
mutation is modelled by returning the updated table as the first component,
alongside the concatenated weekly rows (the final `fillna` on `category` /
`owner_id`, line 103-104, is the identity here because both are total
strings by ingestion). -/
def build_weekly_metrics (df : List Ticket) (weeks_back : Nat) (now : Int) :
    List Ticket × List WeeklyRow :=
  (df.map parseTicket,
   (weekWindows weeks_back now).flatMap
     (fun w => buildWeeklyRow (df.map parseTicket) w.1 w.2))

/-! ## Concrete tickets used by witnesses and counterexamples

All instants are minutes relative to a Monday-midnight epoch; e.g. `-5000`
is the previous week's Thursday and `-10080` the previous week's Monday. -/

/-- A ticket that is closed (`is_closed`), has no recorded `closed_at`, and
was last modified inside the previous week. -/
def tkC1 : Ticket := ⟨"t-c1", .valid (-5000), .absent, .valid (-4000), true, "c", "o"⟩

/-- A ticket with no `created_at` but a recorded close inside the window. -/
def tkC2 : Ticket := ⟨"t-c2", .absent, .valid (-4000), .absent, true, "c", "o"⟩

/-- A ticket with an unparseable `created_at`. -/
def tkC2w : Ticket := ⟨"t-c2w", .malformed, .absent, .absent, false, "c", "o"⟩

/-- An old never-closed ticket. -/
def tkC3 : Ticket := ⟨"t-c3", .valid (-1440), .absent, .absent, false, "c", "o"⟩

/-- A ticket created well after the witness window. -/
def tkC3w : Ticket := ⟨"t-c3w", .valid 99999, .absent, .absent, false, "c", "o"⟩

/-- A ticket opened in the week before epoch, still open. -/
def tkC6 : Ticket := ⟨"t-c6", .valid (-5000), .absent, .absent, false, "c", "o"⟩

/-- A ticket whose timestamp columns are already parsed (valid or NULL). -/
def tkC7 : Ticket := ⟨"t-c7", .valid (-5000), .valid (-4000), .absent, true, "c", "o"⟩

/-- A ticket with an unparseable `created_at` string. -/
def tkC7m : Ticket := ⟨"t-c7m", .malformed, .absent, .absent, false, "c", "o"⟩

/-- A reopened ticket: `is_closed` is false but a stale `closed_at` remains. -/
def tkC8 : Ticket := ⟨"t-c8", .valid (-5000), .valid 100, .valid 200, false, "c", "o"⟩

/-- An open ticket with no close data at all. -/
def tkC8w : Ticket := ⟨"t-c8w", .valid (-5000), .absent, .valid 200, false, "c", "o"⟩

/-- An open ticket created in the week before epoch. -/
def tkC9 : Ticket := ⟨"t-c9", .valid (-5000), .absent, .absent, false, "c", "o"⟩

/-! ## Helper lemmas -/

lemma asInstant_parse (r : RawTime) : asInstant (parseTime r) = asInstant r := by
  cases r <;> rfl

lemma openedP_parse (t : Ticket) (s e : Int) :
    openedP (parseTicket t) s e = openedP t s e := by
  simp [openedP, parseTicket, asInstant_parse]

lemma bhLoopF_succ (fuel : Nat) (d s e : Int) :
    bhLoopF (fuel + 1) d s e =
      if d ≤ dateOf e then
        if isWeekendDay d then bhLoopF fuel (d + 1) s e
        else
          match bhLoopF fuel (d + 1) s e with
          | none => none
          | some rest => some (dayContrib d s e + rest)
      else some 0 := rfl

lemma bhLoopF_total (fuel : Nat) :
    ∀ (d s e : Int), (if d ≤ dateOf e then (dateOf e - d).toNat + 2 else 1) ≤ fuel →
      ∃ m, bhLoopF fuel d s e = some m := by
  induction fuel with
  | zero =>
    intro d s e h
    by_cases hle : d ≤ dateOf e <;> simp [hle] at h
  | succ n ih =>
    intro d s e h
    rw [bhLoopF_succ]
    by_cases hle : d ≤ dateOf e
    · rw [if_pos hle] at h ⊢
      have hrec : (if d + 1 ≤ dateOf e then (dateOf e - (d + 1)).toNat + 2 else 1) ≤ n := by
        by_cases hle2 : d + 1 ≤ dateOf e <;> simp [hle2] <;> omega
      obtain ⟨m, hm⟩ := ih (d + 1) s e hrec
      cases hwk : isWeekendDay d <;> simp [hm]
    · rw [if_neg hle]
      exact ⟨0, rfl⟩

lemma sum_map_add {β : Type} (f g : β → Nat) (l : List β) :
    (l.map (fun k => f k + g k)).sum = (l.map f).sum + (l.map g).sum := by
  induction l with
  | nil => simp
  | cons x xs ih => simp [ih]; omega

lemma sum_indicator_not_mem {β : Type} [DecidableEq β] (a : β) (g : List β)
    (ha : a ∉ g) : (g.map (fun k => if a = k then 1 else 0)).sum = 0 := by
  induction g with
  | nil => simp
  | cons b g ih =>
    have hab : a ≠ b := fun h => ha (h ▸ List.mem_cons_self b g)
    have : a ∉ g := fun h => ha (List.mem_cons_of_mem b h)
    simp [hab, ih this]

lemma sum_indicator_nodup {β : Type} [DecidableEq β] (a : β) (g : List β)
    (hg : g.Nodup) (ha : a ∈ g) : (g.map (fun k => if a = k then 1 else 0)).sum = 1 := by
  induction g with
  | nil => simp at ha
  | cons b g ih =>
    rcases List.nodup_cons.mp hg with ⟨hb, hg2⟩
    by_cases hab : a = b
    · subst hab
      simp [sum_indicator_not_mem a g hb]
    · rcases List.mem_cons.mp ha with h | h
      · exact absurd h hab
      · simp [hab, ih hg2 h]

lemma sum_filter_lengths {α β : Type} [DecidableEq β] (key : α → β) (g : List β)
    (hg : g.Nodup) :
    ∀ (l : List α), (∀ x ∈ l, key x ∈ g) →
      (g.map (fun k => (l.filter (fun x => decide (key x = k))).length)).sum = l.length := by
  intro l
  induction l with
  | nil => simp
  | cons x xs ih =>
    intro hcov
    have hx : key x ∈ g := hcov x (List.mem_cons_self x xs)
    have hxs : ∀ y ∈ xs, key y ∈ g := fun y hy => hcov y (List.mem_cons_of_mem x hy)
    have hpt : (g.map (fun k => ((x :: xs).filter (fun y => decide (key y = k))).length))
        = g.map (fun k => (if key x = k then 1 else 0) +
            (xs.filter (fun y => decide (key y = k))).length) := by
      refine List.map_congr_left (fun k _ => ?_)
      by_cases h : key x = k <;> simp [List.filter_cons, h]
      omega
    rw [hpt, sum_map_add, sum_indicator_nodup (key x) g hg hx, ih hxs]
    simp [Nat.add_comm]

lemma length_filter_of_map {α : Type} (f : α → α) (p : α → Bool) (l : List α) :
    ((l.map f).filter p).length = (l.filter (fun x => p (f x))).length := by
  induction l with
  | nil => rfl
  | cons x xs ih =>
    by_cases h : p (f x) <;> simp [List.filter_cons, h, ih]

lemma dateOf_mul (m : Int) : dateOf (1440 * m) = m := by
  simp only [dateOf]
  omega

lemma winStart_eq (wb : Nat) (now : Int) (k : Nat) :
    winStart wb now k = 1440 * (mondayOf now - 7 * (wb : Int) + 7 * (k : Int)) := by
  simp only [winStart, week_start]
  ring

lemma dateOf_winStart (wb : Nat) (now : Int) (k : Nat) :
    dateOf (winStart wb now k) = mondayOf now - 7 * (wb : Int) + 7 * (k : Int) := by
  rw [winStart_eq, dateOf_mul]

lemma mondayOf_emod (t : Int) : mondayOf t % 7 = 0 := by
  simp only [mondayOf]
  omega

lemma rowFor_week_start (df : List Ticket) (ws we : Int) (g : String × String) :
    (rowFor df ws we g).week_start = dateOf ws := rfl

lemma buildWeeklyRow_week_start (df : List Ticket) (ws we : Int) (r : WeeklyRow)
    (hr : r ∈ buildWeeklyRow df ws we) : r.week_start = dateOf ws := by
  rcases List.mem_map.mp hr with ⟨g, _, rfl⟩
  rfl

lemma buildWeeklyRow_opened_sum (df : List Ticket) (ws we : Int) :
    ((buildWeeklyRow df ws we).map (fun r => r.opened_count)).sum
      = (bmOpened df ws we).length := by
  have hmm : (buildWeeklyRow df ws we).map (fun r => r.opened_count)
      = (groupKeys df ws we).map
          (fun g => ((bmOpened df ws we).filter (fun t => decide (keyOf t = g))).length) := by
    simp only [buildWeeklyRow, List.map_map]
    rfl
  rw [hmm]
  refine sum_filter_lengths keyOf (groupKeys df ws we) (List.nodup_dedup _)
    (bmOpened df ws we) (fun x hx => ?_)
  refine List.mem_dedup.mpr (List.mem_map.mpr ⟨x, ?_, rfl⟩)
  exact List.mem_append.mpr (Or.inl (List.mem_append.mpr (Or.inl hx)))

lemma flatMap_filter_eq_block (B : Nat → List WeeklyRow) (tag : Nat → Int)
    (hB : ∀ i r, r ∈ B i → r.week_start = tag i)
    (hinj : ∀ i j, tag i = tag j → i = j) :
    ∀ (ks : List Nat), ks.Nodup → ∀ k, k ∈ ks →
      (ks.flatMap B).filter (fun r => decide (r.week_start = tag k)) = B k := by
  intro ks
  induction ks with
  | nil => intro _ k hk; simp at hk
  | cons i ks ih =>
    intro hnd k hk
    rcases List.nodup_cons.mp hnd with ⟨hi, hnd2⟩
    rw [List.flatMap_cons, List.filter_append]
    by_cases hik : k = i
    · subst hik
      have h1 : (B k).filter (fun r => decide (r.week_start = tag k)) = B k :=
        List.filter_eq_self.mpr (fun r hr => by simp [hB k r hr])
      have h2 : (ks.flatMap B).filter (fun r => decide (r.week_start = tag k)) = [] := by
        refine List.filter_eq_nil_iff.mpr (fun r hr => ?_)
        rcases List.mem_flatMap.mp hr with ⟨j, hj, hrj⟩
        have : r.week_start = tag j := hB j r hrj
        simp only [this, decide_eq_true_eq]
        intro hEq
        exact hi ((hinj j k hEq) ▸ hj)
      rw [h1, h2, List.append_nil]
    · have hk2 : k ∈ ks := by
        rcases List.mem_cons.mp hk with h | h
        · exact absurd h hik
        · exact h
      have h1 : (B i).filter (fun r => decide (r.week_start = tag k)) = [] := by
        refine List.filter_eq_nil_iff.mpr (fun r hr => ?_)
        have : r.week_start = tag i := hB i r hr
        simp only [this, decide_eq_true_eq]
        intro hEq
        exact hik (hinj k i hEq.symm)
      rw [h1, List.nil_append]
      exact ih hnd2 k hk2

lemma pairwise_le_of_const (c : Int) :
    ∀ (l : List Int), (∀ a ∈ l, a = c) → l.Pairwise (· ≤ ·) := by
  intro l
  induction l with
  | nil => intro _; exact List.Pairwise.nil
  | cons x xs ih =>
    intro h
    refine List.pairwise_cons.mpr ⟨fun b hb => ?_, ih (fun a ha => h a (List.mem_cons_of_mem x ha))⟩
    rw [h x (List.mem_cons_self x xs), h b (List.mem_cons_of_mem x hb)]

lemma pairwise_flatMap_tag (B : Nat → List WeeklyRow) (tag : Nat → Int)
    (hB : ∀ i r, r ∈ B i → r.week_start = tag i) :
    ∀ (ks : List Nat), ks.Pairwise (fun i j => tag i ≤ tag j) →
      ((ks.flatMap B).map (fun r => r.week_start)).Pairwise (· ≤ ·) := by
  intro ks
  induction ks with
  | nil => intro _; simp
  | cons i ks ih =>
    intro hpw
    rcases List.pairwise_cons.mp hpw with ⟨hhead, htail⟩
    rw [List.flatMap_cons, List.map_append]
    refine List.pairwise_append.mpr ⟨?_, ih htail, ?_⟩
    · refine pairwise_le_of_const (tag i) _ (fun a ha => ?_)
      rcases List.mem_map.mp ha with ⟨r, hr, rfl⟩
      exact hB i r hr
    · intro a ha b hb
      rcases List.mem_map.mp ha with ⟨r, hr, rfl⟩
      rcases List.mem_map.mp hb with ⟨r2, hr2, rfl⟩
      rcases List.mem_flatMap.mp hr2 with ⟨j, hj, hrj⟩
      rw [hB i r hr, hB j r2 hrj]
      exact hhead j hj

/-! ## Claim theorems -/

/-- C10: `business_hours_between` terminates for every pair of defined
instants: with the fuel the function supplies — one unit per calendar day
from `start.date()` to `end.date()` plus the final failing check — the
day-walk loop, which advances the current date by exactly one day per
iteration and stops once it passes `end.date()`, always completes with a
value (it never exhausts its fuel), so the function is total. -/
theorem business_hours_loop_terminates (s e : Int) :
    ∃ m : Int, bhLoopF ((dateOf e - dateOf s).toNat + 2) (dateOf s) s e = some m := by
  refine bhLoopF_total _ (dateOf s) s e ?_
  by_cases h : dateOf s ≤ dateOf e <;> simp [h]

/-- C5: for instants `a <= b` on one Monday-to-Friday calendar day with both
wall-clock times inside [09:00, 17:00], the business-hours duration is
exactly `(b - a)` expressed in hours. -/
theorem same_day_duration_exact (a b : Int) (hab : a ≤ b)
    (hd : dateOf a = dateOf b) (hw : dateOf a % 7 < 5)
    (h9 : 1440 * dateOf a + 540 ≤ a) (h17 : b ≤ 1440 * dateOf a + 1020) :
    business_hours_between a b = ((b - a : Int) : ℚ) / 60 := by
  rcases eq_or_lt_of_le hab with heq | hlt
  · subst heq
    simp [business_hours_between]
  · have hwk : isWeekendDay (dateOf a) = false := by
      simp only [isWeekendDay, ge_iff_le, decide_eq_false_iff_not, not_le]
      omega
    have h2 : bhLoopF 1 (dateOf a + 1) a b = some 0 := by
      rw [show (1 : Nat) = 0 + 1 from rfl, bhLoopF_succ, if_neg (by omega)]
    have hcontrib : dayContrib (dateOf a) a b = b - a := by
      simp only [dayContrib, WORK_START, WORK_END]
      rw [max_eq_right h9, min_eq_right h17, if_pos hlt]
    have hloop : bhLoopF 2 (dateOf a) a b = some (b - a) := by
      rw [show (2 : Nat) = 1 + 1 from rfl, bhLoopF_succ, if_pos (le_of_eq hd), hwk]
      simp only [Bool.false_eq_true, if_false, h2, hcontrib, add_zero]
    unfold business_hours_between
    rw [if_neg (not_le.mpr hlt)]
    have hfuel : (dateOf b - dateOf a).toNat + 2 = 2 := by omega
    rw [hfuel, hloop]

/-- Witness for C5 at Monday 09:00 to Monday 10:00. -/
theorem same_day_duration_exact_witness :
    (540 : Int) ≤ 600 ∧ dateOf 540 = dateOf 600 ∧ dateOf 540 % 7 < 5
      ∧ 1440 * dateOf 540 + 540 ≤ 540 ∧ (600 : Int) ≤ 1440 * dateOf 540 + 1020
      ∧ business_hours_between 540 600 = ((600 - 540 : Int) : ℚ) / 60 :=
  ⟨by decide, by decide, by decide, by decide, by decide,
   same_day_duration_exact 540 600 (by decide) (by decide) (by decide) (by decide) (by decide)⟩

/-- C1 (amended): the dashboard Closed cohort is exactly the tickets with
`is_closed` true and an effective close instant (closed_at, else updated_at
when is_closed) inside `[start, end)`; the weekly rollup's Closed cohort
instead requires `closed_at` itself to be present and in-window, with no
`updated_at` fallback. -/
theorem closed_cohort_effective_close (ts : List Ticket) (s e : Int) (t : Ticket) :
    (t ∈ closedCohort ts s e ↔
      t ∈ ts ∧ t.is_closed = true ∧ ∃ c, closed_effective_at t = some c ∧ s ≤ c ∧ c < e)
    ∧ (t ∈ bmClosed ts s e ↔
      t ∈ ts ∧ t.is_closed = true ∧ ∃ c, asInstant t.closed_at = some c ∧ s ≤ c ∧ c < e) := by
  constructor
  · simp only [closedCohort, List.mem_filter, closedP, Bool.and_eq_true]
    cases hc : closed_effective_at t <;> simp [hc, and_assoc]
  · simp only [bmClosed, List.mem_filter, bmClosedP, Bool.and_eq_true]
    cases hc : asInstant t.closed_at <;> simp [hc, and_assoc]

/-- Counterexample for C1 as stated: `tkC1` is closed, has no `closed_at`,
and its `updated_at = -4000` lies inside the previous week's window
`[-10080, 0)`; the spec says it is counted in that window's Closed cohort
"including in the weekly rollup", yet the rollup's only output row carries
`closed_count = 0` (the ticket shows up only as opened / backlog). -/
theorem weekly_rollup_ignores_updated_at_fallback :
    tkC1.is_closed = true ∧ closed_effective_at tkC1 = some (-4000)
      ∧ (-10080 : Int) ≤ -4000 ∧ (-4000 : Int) < 0
      ∧ (build_weekly_metrics [tkC1] 1 0).2 = [⟨-7, "c", "o", 1, 0, 1, none, none⟩] :=
  ⟨rfl, rfl, by decide, by decide, by decide⟩

/-- C8 (amended): when `is_closed` is false the `updated_at` fallback never
fires, so `closed_effective_at` is just the (possibly non-null) `closed_at`
column, and such a ticket is never counted in either Closed cohort. -/
theorem not_closed_no_fallback (t : Ticket) (ts : List Ticket) (s e : Int)
    (h : t.is_closed = false) :
    closed_effective_at t = asInstant t.closed_at
      ∧ t ∉ closedCohort ts s e ∧ t ∉ bmClosed ts s e := by
  refine ⟨?_, ?_, ?_⟩
  · cases hc : asInstant t.closed_at <;> simp [closed_effective_at, hc, h]
  · intro hmem
    have := (List.mem_filter.mp hmem).2
    simp [closedP, h] at this
  · intro hmem
    have := (List.mem_filter.mp hmem).2
    simp [bmClosedP, h] at this

/-- Witness for C8's amended statement on a never-closed ticket. -/
theorem not_closed_no_fallback_witness :
    tkC8w.is_closed = false
      ∧ (closed_effective_at tkC8w = asInstant tkC8w.closed_at
         ∧ tkC8w ∉ closedCohort [tkC8w] (-10080) 0 ∧ tkC8w ∉ bmClosed [tkC8w] (-10080) 0) :=
  ⟨rfl, not_closed_no_fallback tkC8w [tkC8w] (-10080) 0 rfl⟩

/-- Counterexample for C8 as stated: the reopened ticket `tkC8` has
`is_closed = false` yet a populated `closed_at`, and the code derives a
non-null effective close instant for it (`closed_effective_at` is set to
`closed_at` for every row before the fallback mask is applied). -/
theorem not_closed_effective_close_present :
    tkC8.is_closed = false ∧ closed_effective_at tkC8 ≠ none :=
  ⟨rfl, by decide⟩

/-- C2 (amended): a ticket whose `created_at` is missing or unparseable is
excluded from the Opened and Backlog cohorts of every window, in both the
dashboard classifier and the weekly rollup, with no error; the Closed
cohorts do not consult `created_at`, so such a ticket is not excluded from
them. -/
theorem missing_created_at_excluded (t : Ticket) (ts : List Ticket) (s e : Int)
    (h : asInstant t.created_at = none) :
    t ∉ openedCohort ts s e ∧ t ∉ backlogCohort ts e
      ∧ t ∉ bmOpened ts s e ∧ t ∉ bmBacklog ts e := by
  refine ⟨fun hm => ?_, fun hm => ?_, fun hm => ?_, fun hm => ?_⟩
  · simp only [openedCohort, List.mem_filter] at hm
    simp [openedP, h] at hm
  · simp only [backlogCohort, List.mem_filter] at hm
    simp [backlogP, h] at hm
  · simp only [bmOpened, List.mem_filter] at hm
    simp [openedP, h] at hm
  · simp only [bmBacklog, List.mem_filter] at hm
    simp [bmBacklogP, h] at hm

/-- Witness for C2's amended statement on an unparseable `created_at`. -/
theorem missing_created_at_excluded_witness :
    asInstant tkC2w.created_at = none
      ∧ (tkC2w ∉ openedCohort [tkC2w] (-10080) 0 ∧ tkC2w ∉ backlogCohort [tkC2w] 0
         ∧ tkC2w ∉ bmOpened [tkC2w] (-10080) 0 ∧ tkC2w ∉ bmBacklog [tkC2w] 0) :=
  ⟨rfl, missing_created_at_excluded tkC2w [tkC2w] (-10080) 0 rfl⟩

/-- Counterexample for C2 as stated: `tkC2` has no `created_at` at all, yet
it appears in the Closed cohort of the window `[-10080, 0)` — both the
dashboard and rollup Closed filters test only `is_closed` and the close
instant, never `created_at`, so the ticket is not excluded from all three
cohorts. -/
theorem missing_created_at_still_closed :
    asInstant tkC2.created_at = none
      ∧ closedCohort [tkC2] (-10080) 0 = [tkC2]
      ∧ bmClosed [tkC2] (-10080) 0 = [tkC2] :=
  ⟨rfl, by decide, by decide⟩

/-- C3 (amended): a zero-length or inverted window (`end <= start`) yields
empty Opened and Closed cohorts (dashboard and rollup alike) and the
resolution statistics report no value; the Backlog cohort, however, is a
snapshot that depends only on `end` and can be non-empty, and no error is
raised anywhere (all the functions are total). -/
theorem degenerate_window_empty_opened_closed (ts : List Ticket) (s e : Int) (h : e ≤ s) :
    openedCohort ts s e = [] ∧ closedCohort ts s e = []
      ∧ resolutionStats (closedCohort ts s e) = none
      ∧ bmOpened ts s e = [] ∧ bmClosed ts s e = [] := by
  have ho : ∀ t : Ticket, openedP t s e = false := by
    intro t
    cases hc : asInstant t.created_at <;> simp [openedP, hc]
    omega
  have hcl : ∀ t : Ticket, closedP t s e = false := by
    intro t
    cases hc : closed_effective_at t <;> simp [closedP, hc]
    intro _ h1
    omega
  have hbm : ∀ t : Ticket, bmClosedP t s e = false := by
    intro t
    cases hc : asInstant t.closed_at <;> simp [bmClosedP, hc]
    intro _ h1
    omega
  have h1 : openedCohort ts s e = [] :=
    List.filter_eq_nil_iff.mpr (fun t _ => by simp [ho t])
  have h2 : closedCohort ts s e = [] :=
    List.filter_eq_nil_iff.mpr (fun t _ => by simp [hcl t])
  refine ⟨h1, h2, ?_, ?_, ?_⟩
  · rw [h2]
    rfl
  · exact List.filter_eq_nil_iff.mpr (fun t _ => by simp [ho t])
  · exact List.filter_eq_nil_iff.mpr (fun t _ => by simp [hbm t])

/-- Witness for C3's amended statement on an inverted window. -/
theorem degenerate_window_empty_witness :
    (0 : Int) ≤ 10080
      ∧ (openedCohort [tkC3w] 10080 0 = [] ∧ closedCohort [tkC3w] 10080 0 = []
         ∧ resolutionStats (closedCohort [tkC3w] 10080 0) = none
         ∧ bmOpened [tkC3w] 10080 0 = [] ∧ bmClosed [tkC3w] 10080 0 = []) :=
  ⟨by decide, degenerate_window_empty_opened_closed [tkC3w] 10080 0 (by decide)⟩

/-- Counterexample for C3 as stated: for the inverted window
`[start, end) = [10080, 0)` the Backlog slice — which reads only the window
end — still contains the old open ticket `tkC3`, so the claim that all
three cohorts are empty fails. -/
theorem degenerate_window_backlog_nonempty :
    (0 : Int) ≤ 10080 ∧ backlogCohort [tkC3] 0 ≠ [] :=
  ⟨by decide, by decide⟩

/-- C7 (amended): the computation pass never touches `ticket_id`,
`updated_at`, `is_closed`, `category` or `owner_id` of the source table, and
on a table whose `created_at` / `closed_at` columns are already normalized
(no unparseable values) `build_weekly_metrics` leaves the source table
entirely unchanged; the in-place reassignment of those two columns
(src/jobs/build_metrics.py lines 51-52) is the only mutation. -/
theorem build_weekly_metrics_frame (df : List Ticket) (wb : Nat) (now : Int) :
    ((build_weekly_metrics df wb now).1.map
        (fun t => (t.ticket_id, t.updated_at, t.is_closed, t.category, t.owner_id))
      = df.map (fun t => (t.ticket_id, t.updated_at, t.is_closed, t.category, t.owner_id)))
    ∧ ((∀ t ∈ df, parseTime t.created_at = t.created_at ∧ parseTime t.closed_at = t.closed_at)
        → (build_weekly_metrics df wb now).1 = df) := by
  constructor
  · simp only [build_weekly_metrics, List.map_map]
    rfl
  · intro h
    simp only [build_weekly_metrics]
    have hid : ∀ t ∈ df, parseTicket t = t := by
      intro t ht
      obtain ⟨h1, h2⟩ := h t ht
      simp [parseTicket, h1, h2]
    calc df.map parseTicket = df.map id := List.map_congr_left hid
      _ = df := List.map_id df

/-- Witness for C7's amended statement on an already-normalized table. -/
theorem build_weekly_metrics_frame_witness :
    (build_weekly_metrics [tkC7] 1 0).1 = [tkC7] :=
  (build_weekly_metrics_frame [tkC7] 1 0).2 (by decide)

/-- Counterexample for C7 as stated: on a table holding an unparseable
`created_at`, `build_weekly_metrics` rewrites the column in place
(`errors="coerce"` turns the cell into NaT), so the source table observed
after the call differs from the one passed in. -/
theorem build_weekly_metrics_mutates_malformed :
    (build_weekly_metrics [tkC7m] 1 0).1 ≠ [tkC7m] := by decide

/-- C9 (amended): `build_weekly_metrics` reads `now` from the ambient clock
inside the function body rather than taking it as a parameter; modelling
that ambient read as the explicit `now` argument, the output is a
deterministic function of (tickets, weeks_back, clock), and it depends on
the clock reading only through `week_start(now)` — two invocations whose
clock readings fall in the same week produce identical results. -/
theorem build_weekly_metrics_clock_determinism (df : List Ticket) (wb : Nat) (n1 n2 : Int)
    (h : week_start n1 = week_start n2) :
    build_weekly_metrics df wb n1 = build_weekly_metrics df wb n2 := by
  simp only [build_weekly_metrics, weekWindows, winStart, h]

/-- Witness for C9's amended statement: two clock readings in the same week. -/
theorem build_weekly_metrics_clock_determinism_witness :
    week_start 0 = week_start 700
      ∧ build_weekly_metrics [tkC9] 1 0 = build_weekly_metrics [tkC9] 1 700 :=
  ⟨by decide, build_weekly_metrics_clock_determinism [tkC9] 1 0 700 (by decide)⟩

/-- Counterexample for C9 as stated: `now` is not among the Python
function's parameters (`build_weekly_metrics(df, weeks_back=26)` reads
`datetime.now(TZ)` itself), and the output is not determined by the
explicit inputs alone: the same table and `weeks_back` give different rows
under two different ambient clock readings. -/
theorem build_weekly_metrics_depends_on_clock :
    (build_weekly_metrics [tkC9] 1 0).2 ≠ (build_weekly_metrics [tkC9] 1 20160).2 := by
  decide

/-- C4 (amended): for every `weeks_back = N` the rollup enumerates exactly
`N` windows; window `k` starts at `winStart`, each start is a Monday (local
midnight, here a day index that is 0 mod 7), consecutive window starts are
exactly 7 days apart, distinct, and enumerated oldest first; every output
row's `week_start` is one of those `N` Mondays and the rows appear in
oldest-first order.  The output need not contain all `N` values: a week in
which every cohort is empty contributes no rows (see the counterexample). -/
theorem week_windows_structure (df : List Ticket) (wb : Nat) (now : Int) :
    (weekWindows wb now).length = wb
      ∧ (∀ k, k < wb →
          (weekWindows wb now)[k]? = some (winStart wb now k, winStart wb now k + 10080))
      ∧ (∀ k, winStart wb now (k + 1) = winStart wb now k + 10080)
      ∧ (∀ k : Nat, dateOf (winStart wb now k) % 7 = 0)
      ∧ (∀ i j : Nat, dateOf (winStart wb now i) = dateOf (winStart wb now j) → i = j)
      ∧ (∀ r ∈ (build_weekly_metrics df wb now).2,
          ∃ k, k < wb ∧ r.week_start = dateOf (winStart wb now k))
      ∧ ((build_weekly_metrics df wb now).2.map (fun r => r.week_start)).Pairwise (· ≤ ·) := by
  have hmono : ∀ {i j : Nat}, i < j →
      dateOf (winStart wb now i) ≤ dateOf (winStart wb now j) := by
    intro i j hij
    rw [dateOf_winStart, dateOf_winStart]
    omega
  have hconv : (build_weekly_metrics df wb now).2
      = (List.range wb).flatMap
          (fun i => buildWeeklyRow (df.map parseTicket)
            (winStart wb now i) (winStart wb now i + 10080)) := by
    simp only [build_weekly_metrics, weekWindows, List.flatMap_map]
  refine ⟨by simp [weekWindows], ?_, ?_, ?_, ?_, ?_, ?_⟩
  · intro k hk
    simp [weekWindows, List.getElem?_map, List.getElem?_range hk]
  · intro k
    simp only [winStart]
    push_cast
    ring
  · intro k
    rw [dateOf_winStart]
    have := mondayOf_emod now
    omega
  · intro i j hEq
    rw [dateOf_winStart, dateOf_winStart] at hEq
    omega
  · intro r hr
    rw [hconv] at hr
    rcases List.mem_flatMap.mp hr with ⟨i, hi, hri⟩
    exact ⟨i, List.mem_range.mp hi, buildWeeklyRow_week_start _ _ _ r hri⟩
  · rw [hconv]
    refine pairwise_flatMap_tag _ (fun i => dateOf (winStart wb now i)) ?_ _ ?_
    · intro i r hr
      exact buildWeeklyRow_week_start _ _ _ r hr
    · exact (List.pairwise_lt_range wb).imp hmono

/-- Counterexample for C4 as stated: on an empty ticket table with
`weeks_back = 1` the rollup output has no rows at all, hence zero distinct
`week_start` values rather than exactly one. -/
theorem weekly_rollup_empty_table_no_week_starts :
    ((build_weekly_metrics [] 1 0).2.map (fun r => r.week_start)).dedup.length = 0
      ∧ (0 : Nat) ≠ 1 :=
  ⟨by decide, by decide⟩

/-- C6: for every window `k` of a rollup run, the sum of `opened_count` over
all the output rows stamped with that window's `week_start` equals the
number of source tickets whose `created_at` lies inside that window. -/
theorem opened_count_sum_matches_window (df : List Ticket) (wb : Nat) (now : Int)
    (k : Nat) (hk : k < wb) :
    (((build_weekly_metrics df wb now).2.filter
        (fun r => decide (r.week_start = dateOf (winStart wb now k)))).map
      (fun r => r.opened_count)).sum
      = (df.filter
          (fun t => openedP t (winStart wb now k) (winStart wb now k + 10080))).length := by
  have hconv : (build_weekly_metrics df wb now).2
      = (List.range wb).flatMap
          (fun i => buildWeeklyRow (df.map parseTicket)
            (winStart wb now i) (winStart wb now i + 10080)) := by
    simp only [build_weekly_metrics, weekWindows, List.flatMap_map]
  have hblock : ((List.range wb).flatMap
        (fun i => buildWeeklyRow (df.map parseTicket)
          (winStart wb now i) (winStart wb now i + 10080))).filter
        (fun r => decide (r.week_start = dateOf (winStart wb now k)))
      = buildWeeklyRow (df.map parseTicket) (winStart wb now k) (winStart wb now k + 10080) := by
    refine flatMap_filter_eq_block _ (fun i => dateOf (winStart wb now i)) ?_ ?_
      (List.range wb) (List.nodup_range wb) k (List.mem_range.mpr hk)
    · intro i r hr
      exact buildWeeklyRow_week_start _ _ _ r hr
    · intro i j hEq
      simp only [dateOf_winStart] at hEq
      omega
  rw [hconv, hblock, buildWeeklyRow_opened_sum]
  simp only [bmOpened]
  rw [length_filter_of_map]
  have hpt : (fun t => openedP (parseTicket t) (winStart wb now k) (winStart wb now k + 10080))
      = (fun t => openedP t (winStart wb now k) (winStart wb now k + 10080)) :=
    funext (fun t => openedP_parse t _ _)
  rw [hpt]

/-- Witness for C6 on a one-ticket table over the previous week. -/
theorem opened_count_sum_matches_window_witness :
    (0 : Nat) < 1
      ∧ (((build_weekly_metrics [tkC6] 1 0).2.filter
            (fun r => decide (r.week_start = dateOf (winStart 1 0 0)))).map
          (fun r => r.opened_count)).sum
          = ([tkC6].filter
              (fun t => openedP t (winStart 1 0 0) (winStart 1 0 0 + 10080))).length :=
  ⟨by decide, opened_count_sum_matches_window [tkC6] 1 0 0 (by decide)⟩
